import Mathlib

/-!
# Verification of the Poem Synonymizer core (`src/processer.py`)

Shallow embedding of the `processor` class: tokenization, part-of-speech
heuristics and remote tagging with circuit breaker, thesaurus cache/fetch,
synonym selection, and sentence building.  External effects (remote HTTP
calls, the on-disk cache, `random.choice`) are modelled explicitly:

* the cache directory is a map from safe file names to file contents
  (`some (some j)` = readable JSON file, `some none` = unreadable file,
  `none` = file absent);
* remote outcomes are supplied by an environment/oracle;
* Python exceptions are modelled with `Except Unit`; every source
  `try`/`except` becomes a `match` on the `Except` value at the same spot;
* network calls are counted (the `Nat` component of each result).

Python string operations are modelled at ASCII fidelity (the repository's
data is ASCII); `\w` is `[A-Za-z0-9_]`.
-/

namespace PoemSyn

/-- The apostrophe character (used by the tokenizer's contraction rule). -/
def apos : Char := Char.ofNat 39

/-- Python `\w` word character (ASCII fidelity): letters, digits, underscore. -/
def isWordChar (c : Char) : Bool := c.isAlphanum || c = '_'

/-- Python whitespace characters recognised by `str.strip` / `str.rstrip`. -/
def pyIsSpace (c : Char) : Bool :=
  c = ' ' || c = '\t' || c = '\n' || c = '\r' || c = '\x0b' || c = '\x0c'

/-- Python `str.lower()` (ASCII fidelity). -/
def pyLower (s : String) : String :=
  String.mk (s.data.map Char.toLower)

/-- Python `str.endswith(t)`. -/
def strEndsWith (s t : String) : Bool :=
  s.data.reverse.take t.data.length == t.data.reverse

/-- Python `str.strip()`. -/
def pyStrip (s : String) : String :=
  String.mk (((s.data.dropWhile pyIsSpace).reverse.dropWhile pyIsSpace).reverse)

/-- Python `str.rstrip()`. -/
def pyRstrip (s : String) : String :=
  String.mk ((s.data.reverse.dropWhile pyIsSpace).reverse)

/-- Python `str.capitalize()`: first character uppercased, **all remaining
characters lowercased** (ASCII fidelity). -/
def pyCapitalize (s : String) : String :=
  match s.data with
  | [] => ""
  | c :: rest => String.mk (c.toUpper :: rest.map Char.toLower)

/-- Python `word and word[0].isupper()`: the string is nonempty and its first
character is an uppercase letter. -/
def firstIsUpper (s : String) : Bool :=
  match s.data with
  | [] => false
  | c :: _ => c.isUpper

/-- JSON values, the shape of thesaurus documents and remote-tagging
responses.  Numbers are modelled as integers (no claim depends on floats). -/
inductive Json where
  | null
  | bool (b : Bool)
  | num (n : Int)
  | str (s : String)
  | arr (items : List Json)
  | obj (fields : List (String × Json))

/-- Python `dict.get(k)` on a JSON object (`none` both for a missing key and
for a non-object, which the source always guards with `isinstance`). -/
def Json.getKey : Json → String → Option Json
  | .obj fs, k => fs.lookup k
  | _, _ => none

/-- Python truthiness of a JSON value (`if entry:`). -/
def pyTruthy : Json → Bool
  | .null => false
  | .bool b => b
  | .num n => n != 0
  | .str s => s != ""
  | .arr xs => !xs.isEmpty
  | .obj fs => !fs.isEmpty

/-- Python iteration `for x in v`: lists yield their items, dicts their keys,
strings their characters; other values raise `TypeError` (modelled `none`). -/
def pyIterate : Json → Option (List Json)
  | .arr xs => some xs
  | .obj fs => some (fs.map (fun p => Json.str p.1))
  | .str s => some (s.data.map (fun c => Json.str (String.mk [c])))
  | _ => none

mutual
/-- Python `repr` of a JSON-shaped value (ASCII fidelity; strings are quoted
with an apostrophe as CPython does). -/
def pyRepr : Json → String
  | .null => "None"
  | .bool b => if b then "True" else "False"
  | .num n => toString n
  | .str s => "\x27" ++ s ++ "\x27"
  | .arr xs => "[" ++ pyReprList xs ++ "]"
  | .obj fs => "\x7b" ++ pyReprFields fs ++ "\x7d"

/-- Comma-separated `repr`s of list items. -/
def pyReprList : List Json → String
  | [] => ""
  | [x] => pyRepr x
  | x :: rest => pyRepr x ++ ", " ++ pyReprList rest

/-- Comma-separated `repr`s of dict fields. -/
def pyReprFields : List (String × Json) → String
  | [] => ""
  | [(k, v)] => "\x27" ++ k ++ "\x27: " ++ pyRepr v
  | (k, v) :: rest => "\x27" ++ k ++ "\x27: " ++ pyRepr v ++ ", " ++ pyReprFields rest
end

/-- Python `str()` of a JSON-shaped value: the string itself for strings,
otherwise `repr`. -/
def pyStr : Json → String
  | .str s => s
  | j => pyRepr j

/-! ## Tokenizer

`processer.py` line 115: `tokens = re.findall(r"\n|\b\w+(?:'\w+)?\b", str(text))`.

The scanner state below implements that regex's left-to-right `findall`
semantics directly:

* `out prevW` — between matches; `prevW` records whether the previously
  scanned character was a word character, which decides the `\b` boundary
  at the current position;
* `w1 acc` — inside the `\w+` run (accumulated reversed in `acc`);
* `w1apos acc` — the `\w+` run ended at an apostrophe; the next character
  decides between the `'\w+` continuation and ending the match before the
  apostrophe (in which case the scan resumes at the apostrophe, which is a
  plain non-word character);
* `w2 acc` — inside the optional `'\w+` continuation.

A word match starts only at a `\b` boundary (current char is a word char,
previous is not), consumes the maximal `\w+` run, then consumes `'\w+` iff
an apostrophe followed by a word character is next (the trailing `\b` then
holds automatically because both runs are maximal).  After a match the scan
resumes at the first unconsumed character. -/

inductive TokState where
  | out (prevW : Bool)
  | w1 (acc : List Char)
  | w1apos (acc : List Char)
  | w2 (acc : List Char)

/-- One left-to-right pass of `re.findall(r"\n|\b\w+(?:'\w+)?\b", ·)`. -/
def tokScan : TokState → List Char → List String
  | .out _, [] => []
  | .out prevW, c :: rest =>
    if c = '\n' then "\n" :: tokScan (.out false) rest
    else if isWordChar c && !prevW then tokScan (.w1 [c]) rest
    else tokScan (.out (isWordChar c)) rest
  | .w1 acc, [] => [String.mk acc.reverse]
  | .w1 acc, c :: rest =>
    if isWordChar c then tokScan (.w1 (c :: acc)) rest
    else if c = apos then tokScan (.w1apos acc) rest
    else if c = '\n' then String.mk acc.reverse :: ("\n" :: tokScan (.out false) rest)
    else String.mk acc.reverse :: tokScan (.out false) rest
  | .w1apos acc, [] => [String.mk acc.reverse]
  | .w1apos acc, d :: rest2 =>
    if isWordChar d then tokScan (.w2 (d :: apos :: acc)) rest2
    else if d = '\n' then String.mk acc.reverse :: ("\n" :: tokScan (.out false) rest2)
    else String.mk acc.reverse :: tokScan (.out false) rest2
  | .w2 acc, [] => [String.mk acc.reverse]
  | .w2 acc, c :: rest =>
    if isWordChar c then tokScan (.w2 (c :: acc)) rest
    else if c = '\n' then String.mk acc.reverse :: ("\n" :: tokScan (.out false) rest)
    else String.mk acc.reverse :: tokScan (.out false) rest
termination_by structural _ l => l

/-- `re.findall(r"\n|\b\w+(?:'\w+)?\b", text)` (line 115). -/
def pyFindall (text : String) : List String :=
  tokScan (.out false) text.data

/-- `NEWLINE_MARKER` (line 25). -/
def NEWLINE_MARKER : String := "_newLine"

/-- Line 116: every `"\n"` token is replaced by the newline sentinel. -/
def wordsOf (text : String) : List String :=
  (pyFindall text).map (fun t => if t = "\n" then NEWLINE_MARKER else t)

/-! ## Local heuristic classifier (`_guess_type`, lines 122-149) -/

def pronouns : List String :=
  ["i", "you", "he", "she", "it", "we", "they", "me", "him", "her", "us",
   "them", "my", "your", "his", "our", "their", "mine", "yours"]

def determiners : List String :=
  ["the", "a", "an", "this", "that", "these", "those", "some", "any",
   "each", "every", "no", "its"]

def prepositions : List String :=
  ["in", "on", "at", "for", "to", "from", "by", "with", "about", "of",
   "into", "over", "under", "between", "among"]

def conjunctions : List String :=
  ["and", "but", "or", "nor", "so", "yet", "for"]

/-- `re.match(r'^\W+$', w)`: nonempty and every character a non-word
character.  (The `$`-before-trailing-newline subtlety adds nothing here
because `\n` is itself a non-word character.) -/
def allNonWord (w : String) : Bool :=
  !w.data.isEmpty && w.data.all (fun c => !isWordChar c)

/-- `re.match(r'^[0-9]+(\.[0-9]+)?$', lw)`: digits, optionally a dot and
more digits; `$` also matches just before one trailing newline. -/
def numeralShape (w : String) : Bool :=
  let l := w.data
  let core := if l.getLast? = some '\n' then l.dropLast else l
  let ds := core.takeWhile (·.isDigit)
  let rest := core.dropWhile (·.isDigit)
  if ds.isEmpty then false
  else
    match rest with
    | [] => true
    | c :: frac => c = '.' && !frac.isEmpty && frac.all (·.isDigit)

/-- `_guess_type` (lines 122-149): the heuristic rule cascade, applied in
source order. -/
def guessType (w : String) : String :=
  let lw := pyLower w
  if w = NEWLINE_MARKER then "newline"
  else if allNonWord w then "punctuation"
  else if numeralShape lw then "numeral"
  else if lw ∈ pronouns then "pronoun"
  else if lw ∈ determiners then "determiner"
  else if lw ∈ prepositions then "preposition"
  else if lw ∈ conjunctions then "conjunction"
  else if strEndsWith lw "ly" then "adverb"
  else if strEndsWith lw "ing" || strEndsWith lw "ed" || strEndsWith lw "s" then "verb"
  else "noun"

/-! ## Session state and effect environment -/

/-- The mutable fields of a `processor` instance, plus the cache directory.
`cache` maps a safe file name to `some (some j)` (readable JSON file `j`),
`some none` (file present but unreadable/unparseable) or `none` (absent). -/
structure St where
  data : Option String
  words : List String
  words_type : List (String × String)
  thesaurus_key : Option String
  thesaurus_link : Option String
  gemini_key : Option String
  gemini_failures : Nat
  synonym_sentence : String
  cache : String → Option (Option Json)

/-- Outcome oracle for one remote POS-tagging POST (lines 172-202):
`exn` is any exception inside the `try`; `resp status parsed` is a reply,
where `parsed` is the combined outcome of `resp.json()`, candidate-shape
extraction and `json.loads` (`Except.error` = any of those raised). -/
inductive GeminiOutcome where
  | exn
  | resp (status : Nat) (parsed : Except Unit Json)

/-- Effect environment for thesaurus resolution and synonym choice:
`makedirsOk` — whether `os.makedirs` succeeds; `thesaurusResp w` — the
outcome of the remote GET + JSON parse for word `w` (`none` = any
exception, covering transport errors, `raise_for_status`, parse and
cache-write failures); `pick` — the index drawn by `random.choice`. -/
structure Env where
  makedirsOk : Bool
  thesaurusResp : String → Option Json
  pick : List String → Nat

/-! ## Thesaurus helpers (lines 308-367) -/

/-- `_safe_filename` (lines 308-310): `re.sub(r'[^A-Za-z0-9._-]', '_',
word.strip().lower())[:200]`. -/
def safe_filename (word : String) : String :=
  String.mk (((pyLower (pyStrip word)).data.map
    (fun c => if c.isAlphanum || c = '.' || c = '_' || c = '-' then c else '_')).take 200)

/-- `call_thesaurus` (lines 336-367).  Everything after the config/word
guards runs inside one `try`, so the function never raises: any failure of
the GET, of `raise_for_status`, of the JSON parse, of `makedirs` or of the
cache write yields `none`.  The `Nat` result counts network calls; a cache
entry is written only when the whole `try` body succeeds. -/
def call_thesaurus (env : Env) (st : St) (word : String) : Option Json × St × Nat :=
  match st.thesaurus_link, st.thesaurus_key with
  | some _, some _ =>
    if pyStrip word = "" then (none, st, 0)
    else
      match env.thesaurusResp word with
      | none => (none, st, 1)
      | some data =>
        if env.makedirsOk then
          (some data,
           { st with cache := fun k =>
               if k = safe_filename word then some (some data) else st.cache k },
           1)
        else (none, st, 1)
  | _, _ => (none, st, 0)

/-- `get_or_fetch_thesaurus` (lines 312-334).  The only statement outside a
`try` that can raise is `os.makedirs` (line 321), before any state change:
that is the `Except.error` case.  An unreadable cache file (`some none`)
falls through to the remote call, exactly as the source's inner
`try`/`except` does. -/
def get_or_fetch_thesaurus (env : Env) (st : St) (word : String) :
    Except Unit (Option Json × St × Nat) :=
  if pyStrip word = "" then .ok (none, st, 0)
  else if !env.makedirsOk then .error ()
  else
    match st.cache (safe_filename word) with
    | some (some j) => .ok (some j, st, 0)
    | some none => .ok (call_thesaurus env st word)
    | none => .ok (call_thesaurus env st word)

/-! ## Synonym selection (`build_synonym_string` body, lines 256-287) -/

/-- A thesaurus record matching the word's type:
`isinstance(e, dict) and e.get("fl") == wtype` (line 262; a string compared
to a Python value is equal only to that very string). -/
def matchesType (wtype : String) (e : Json) : Bool :=
  match e with
  | .obj fs =>
    match fs.lookup "fl" with
    | some (.str s) => s == wtype
    | _ => false
  | _ => false

/-- Lines 266-270 for one matching record `e`:
`meta = e.get("meta", {})`, then `for syn_list in meta.get("syns", []): if
isinstance(syn_list, list): extend([s for s in syn_list if isinstance(s, str)])`.
`Except.error` models the `TypeError`/`AttributeError` raised when `meta`
is not a dict or `syns` is not iterable; it is caught by the per-word
`except` (line 285). -/
def candidatesOfEntry (e : Json) : Except Unit (List String) :=
  match (Json.getKey e "meta").getD (Json.obj []) with
  | .obj fs =>
    match pyIterate ((fs.lookup "syns").getD (Json.arr [])) with
    | none => .error ()
    | some lists =>
      .ok ((lists.map (fun sl =>
        match sl with
        | .arr ys => ys.filterMap (fun y => match y with | .str s => some s | _ => none)
        | _ => [])).flatten)
  | _ => .error ()

/-- The flattened candidate collection across all matching records. -/
def collectCandidates : List Json → Except Unit (List String)
  | [] => .ok []
  | e :: rest => do
    let xs ← candidatesOfEntry e
    let ys ← collectCandidates rest
    .ok (xs ++ ys)

/-- Line 277-278: `if word and word[0].isupper(): chosen_word =
chosen_word.capitalize()`. -/
def applyCase (word chosen : String) : String :=
  if firstIsUpper word then pyCapitalize chosen else chosen

/-- Lines 260-282: the selection logic applied to a fetched entry, run
inside the per-word `try` (so an `Except.error` is caught by the caller).
A non-list entry is wrapped in a singleton (line 261); records are filtered
by `fl` (line 262); candidates equal to the word case-insensitively are
dropped (line 272); `random.choice` is modelled by `env.pick` reduced
modulo the candidate count. -/
def selectSynonym (env : Env) (word wtype : String) (entry : Option Json) :
    Except Unit String :=
  match entry with
  | none => .ok word
  | some e =>
    if pyTruthy e then
      let entries := match e with | .arr xs => xs | _ => [e]
      let matching := entries.filter (matchesType wtype)
      if matching.isEmpty then .ok word
      else do
        let cands0 ← collectCandidates matching
        let cands := cands0.filter (fun s => pyLower s != pyLower word)
        if cands.isEmpty then .ok word
        else .ok (applyCase word (cands.getD (env.pick cands % cands.length) ""))
    else .ok word

/-- One iteration of the word branch of the build loop (lines 256-287):
fetch, select, and on **any** exception fall back to the original word
(the `except` at line 285 also catches the `makedirs` error raised by
`get_or_fetch_thesaurus`, whose raise happens before any state change). -/
def chooseWord (env : Env) (st : St) (word wtype : String) : String × St × Nat :=
  match get_or_fetch_thesaurus env st word with
  | .error _ => (word, st, 0)
  | .ok (entry, st', n) =>
    match selectSynonym env word wtype entry with
    | .error _ => (word, st', n)
    | .ok c => (c, st', n)

/-! ## Sentence builder (`build_synonym_string`, lines 234-304) -/

/-- Lines 250-252: if the last buffered part ends with a space, `rstrip` it
before appending the newline segment. -/
def rstripLast (parts : List String) : List String :=
  match parts.getLast? with
  | none => parts
  | some lastP =>
    if strEndsWith lastP " " then parts.dropLast ++ [pyRstrip lastP] else parts

/-- The loop of `build_synonym_string` (lines 242-297) over the typed
tokens, accumulating buffer segments, the evolving state (cache writes) and
the network-call count. -/
def buildLoop (env : Env) : List (String × String) → List String → St →
    List String × St × Nat
  | [], parts, st => (parts, st, 0)
  | (word, wtype) :: rest, parts, st =>
    if word = NEWLINE_MARKER then
      buildLoop env rest (rstripLast parts ++ ["\n"]) st
    else
      let r := chooseWord env st word wtype
      let piece :=
        match parts.getLast? with
        | none => r.1
        | some lastP => if lastP = "\n" then r.1 else " " ++ r.1
      let rec2 := buildLoop env rest (parts ++ [piece]) r.2.1
      (rec2.1, rec2.2.1, r.2.2 + rec2.2.2)

/-- Line 302: `re.sub(r" +\n", "\n", sentence)` — drop every space that is
followed (through further such spaces) by a newline.  A space is removed
exactly when the already-processed tail begins with `'\n'`. -/
def squashSpaceNl : List Char → List Char
  | [] => []
  | c :: rest =>
    let acc := squashSpaceNl rest
    if c = ' ' ∧ acc.head? = some '\n' then acc else c :: acc

/-- `build_synonym_string` (lines 234-304): run the loop, join the buffer,
normalise spaces before newlines, store the result in `synonym_sentence`. -/
def build_synonym_string (env : Env) (st : St) : String × St × Nat :=
  let r := buildLoop env st.words_type [] st
  let sentence := String.mk (squashSpaceNl ((r.1.map String.data).flatten))
  (sentence, { r.2.1 with synonym_sentence := sentence }, r.2.2)

/-! ## Classifier (`find_type`, lines 96-230) -/

/-- One `[word, type]` item of the parsed remote response (lines 204-217). -/
def tagItem (item : Json) : String × String :=
  match item with
  | .arr xs =>
    if 2 ≤ xs.length then
      let w := pyStr (xs.getD 0 .null)
      let t := pyStr (xs.getD 1 .null)
      if w = "\n" || w = NEWLINE_MARKER then (NEWLINE_MARKER, "newline") else (w, t)
    else
      let s := pyStr item
      if s = "\n" || s = NEWLINE_MARKER then (NEWLINE_MARKER, "newline")
      else (s, guessType s)
  | _ =>
    let s := pyStr item
    if s = "\n" || s = NEWLINE_MARKER then (NEWLINE_MARKER, "newline")
    else (s, guessType s)

/-- Whether a remote-tagging outcome takes one of the failure branches:
any exception in the `try` (line 221), an HTTP status `>= 400` (line 174),
a parse failure, or a non-iterable parsed value (`TypeError` in the
`for` loop, also caught at line 221). -/
def geminiFails : GeminiOutcome → Bool
  | .exn => true
  | .resp status parsed =>
    if 400 ≤ status then true
    else
      match parsed with
      | .error _ => true
      | .ok j => (pyIterate j).isNone

/-- `find_type` (lines 96-230).  Returns the `words_type` result, the new
state and the number of remote POS-tagging calls (0 or 1).  The failure
branches increment `_gemini_failures` and clear `gemini_key` once the
counter reaches 3; the success branch resets the counter to 0. -/
def find_type (g : GeminiOutcome) (st : St) (user_input : Option String) :
    List (String × String) × St × Nat :=
  let text := user_input.getD (st.data.getD "")
  if pyStrip text = "" then
    ([], { st with words := [], words_type := [] }, 0)
  else
    let words := wordsOf text
    if words.isEmpty then
      ([], { st with words := words, words_type := [] }, 0)
    else
      match st.gemini_key with
      | none =>
        let res := words.map (fun w => (w, guessType w))
        (res, { st with words := words, words_type := res }, 0)
      | some _ =>
        if geminiFails g then
          let f := st.gemini_failures + 1
          let res := words.map (fun w => (w, guessType w))
          (res,
           { st with words := words, words_type := res, gemini_failures := f,
                     gemini_key := if 3 ≤ f then none else st.gemini_key },
           1)
        else
          match g with
          | .resp _ (.ok j) =>
            let items := (pyIterate j).getD []
            let res := items.map tagItem
            (res,
             { st with words := words, words_type := res, gemini_failures := 0 },
             1)
          | _ =>
            -- unreachable: `geminiFails g = false` forces this shape
            ([], st, 1)

/-! ## Orchestrator (`process`, lines 58-92) -/

/-- The pre-fetch loop of `process` (lines 76-91): newline markers are
skipped, and each fetch runs inside its own `try` whose `except` swallows
the failure (the `get_or_fetch_thesaurus` raise happens before any state
change, so the state at the handler is the state at call entry). -/
def prefetchLoop (env : Env) : List (String × String) → St → St × Nat
  | [], st => (st, 0)
  | (word, _) :: rest, st =>
    if word = NEWLINE_MARKER then prefetchLoop env rest st
    else
      match get_or_fetch_thesaurus env st word with
      | .error _ => prefetchLoop env rest st
      | .ok (_, st', n) =>
        let r := prefetchLoop env rest st'
        (r.1, n + r.2)

/-- The submission payload: a dict with a truthy `_rebuild` key triggers the
rebuild path; every other input is coerced with `str()` (and `None` to
`""`), yielding the `text` case. -/
inductive PInput where
  | rebuildCmd
  | text (s : String)

/-- `process` (lines 58-92), in the `Except` world: an uncaught exception
in the body would surface as `Except.error`.  The rebuild path only calls
`build_synonym_string`; the text path stores the input, classifies,
pre-fetches and builds. -/
def process (env : Env) (g : GeminiOutcome) (st : St) (inp : PInput) :
    Except Unit (String × St × Nat) :=
  match inp with
  | .rebuildCmd =>
    let r := build_synonym_string env st
    .ok r
  | .text s =>
    let st1 : St := { st with data := some s }
    let r1 := find_type g st1 none
    let r2 := prefetchLoop env r1.2.1.words_type r1.2.1
    let r3 := build_synonym_string env r2.1
    .ok (r3.1, r3.2.1, r1.2.2 + r2.2 + r3.2.2)

/-! ## Concrete instances used by the scenario theorems -/

/-- A freshly constructed session with no configuration and an empty cache
directory (`processor.__init__` with no `config.json` and no cache). -/
def stInit : St :=
  { data := none, words := [], words_type := [], thesaurus_key := none,
    thesaurus_link := none, gemini_key := none, gemini_failures := 0,
    synonym_sentence := "", cache := fun _ => none }

/-- Environment where every remote thesaurus call fails and `random.choice`
takes the first candidate. -/
def envNil : Env := { makedirsOk := true, thesaurusResp := fun _ => none, pick := fun _ => 0 }

/-- Session with a thesaurus URL template and key configured, empty cache,
and one pending word. -/
def stC1 : St :=
  { stInit with words_type := [("hello", "noun")], thesaurus_key := some "k",
                thesaurus_link := some "L" }

/-- A thesaurus entry for `abc` whose only synonym has mixed inner casing. -/
def entryC3 : Json := .obj [("fl", .str "noun"),
  ("meta", .obj [("syns", .arr [.arr [.str "mcDonald"]])])]

/-- Cache holding `entryC3` under the safe name of `Abc`. -/
def stC3 : St :=
  { stInit with cache := fun k => if k = "abc" then some (some entryC3) else none }

/-- A thesaurus entry whose only synonym carries a leading space. -/
def entryC7 : Json := .obj [("fl", .str "noun"),
  ("meta", .obj [("syns", .arr [.arr [.str " quick"]])])]

/-- Session whose single word resolves to the leading-space synonym. -/
def stC7 : St :=
  { stInit with words_type := [("fast", "noun")],
                cache := fun k => if k = "fast" then some (some entryC7) else none }

/-- Session with a remote-tagging key configured. -/
def stC2 : St := { stInit with gemini_key := some "g" }

/-- Session with thesaurus configuration and an empty cache. -/
def stC6 : St := { stInit with thesaurus_key := some "k", thesaurus_link := some "L" }

/-- A minimal thesaurus document. -/
def jC6 : Json := .obj [("fl", .str "noun")]

/-- Environment whose remote thesaurus calls succeed with `jC6`. -/
def envC6 : Env := { envNil with thesaurusResp := fun _ => some jC6 }

/-- `stC6` after a successful fetch of `hello` wrote the cache file. -/
def stC6' : St :=
  { stC6 with cache := fun k =>
      if k = safe_filename "hello" then some (some jC6) else stC6.cache k }

/-- Environment whose `makedirs` raises (e.g. permission error on the cache
directory). -/
def envBad : Env := { envNil with makedirsOk := false }

/-- The state fields `build_synonym_string`, `chooseWord` and the thesaurus
helpers never touch: everything except `synonym_sentence` and the cache. -/
def coreEq (s t : St) : Prop :=
  t.data = s.data ∧ t.words = s.words ∧ t.words_type = s.words_type ∧
  t.thesaurus_key = s.thesaurus_key ∧ t.thesaurus_link = s.thesaurus_link ∧
  t.gemini_key = s.gemini_key ∧ t.gemini_failures = s.gemini_failures

theorem coreEq_refl (s : St) : coreEq s s := by simp [coreEq]

theorem coreEq_trans {s t u : St} (h1 : coreEq s t) (h2 : coreEq t u) : coreEq s u := by
  obtain ⟨a1, a2, a3, a4, a5, a6, a7⟩ := h1
  obtain ⟨b1, b2, b3, b4, b5, b6, b7⟩ := h2
  exact ⟨b1.trans a1, b2.trans a2, b3.trans a3, b4.trans a4,
         b5.trans a5, b6.trans a6, b7.trans a7⟩

theorem call_thesaurus_core (env : Env) (st : St) (w : String) :
    coreEq st (call_thesaurus env st w).2.1 ∧ (call_thesaurus env st w).2.2 ≤ 1 := by
  unfold call_thesaurus
  (repeat' split) <;> simp [coreEq]

theorem get_or_fetch_core (env : Env) (st : St) (w : String)
    (r : Option Json × St × Nat) (h : get_or_fetch_thesaurus env st w = .ok r) :
    coreEq st r.2.1 ∧ r.2.2 ≤ 1 := by
  unfold get_or_fetch_thesaurus at h
  split at h
  · cases h; simp [coreEq]
  · split at h
    · cases h
    · split at h <;> cases h <;>
        first
          | exact call_thesaurus_core env st w
          | simp [coreEq]

theorem chooseWord_core (env : Env) (st : St) (w t : String) :
    coreEq st (chooseWord env st w t).2.1 ∧ (chooseWord env st w t).2.2 ≤ 1 := by
  unfold chooseWord
  cases hg : get_or_fetch_thesaurus env st w with
  | error e => simp [coreEq]
  | ok r =>
    have h2 := get_or_fetch_core env st w r hg
    cases hs : selectSynonym env w t r.1 <;>
      simp only [hg, hs] <;> exact ⟨h2.1, h2.2⟩

theorem buildLoop_core (env : Env) (l : List (String × String)) :
    ∀ (parts : List String) (st : St), coreEq st (buildLoop env l parts st).2.1 := by
  induction l with
  | nil => intro parts st; simp [buildLoop, coreEq]
  | cons p rest ih =>
    intro parts st
    obtain ⟨w, t⟩ := p
    unfold buildLoop
    split
    · exact ih _ st
    · exact coreEq_trans (chooseWord_core env st w t).1 (ih _ _)

theorem build_core (env : Env) (st : St) :
    coreEq st (build_synonym_string env st).2.1 := by
  have h := buildLoop_core env st.words_type [] st
  unfold build_synonym_string
  obtain ⟨a1, a2, a3, a4, a5, a6, a7⟩ := h
  exact ⟨a1, a2, a3, a4, a5, a6, a7⟩

theorem chooseWord_cached (env : Env) (st : St) (w t : String)
    (h : pyStrip w = "" ∨ ∃ j, st.cache (safe_filename w) = some (some j)) :
    (chooseWord env st w t).2.1 = st ∧ (chooseWord env st w t).2.2 = 0 := by
  unfold chooseWord get_or_fetch_thesaurus
  by_cases hw : pyStrip w = ""
  · simp [hw, selectSynonym]
  · by_cases hm : env.makedirsOk
    · obtain ⟨j, hj⟩ := h.resolve_left hw
      simp only [hw, hm, hj, if_neg, if_pos, Bool.not_true, ite_false, ite_true,
        Bool.false_eq_true]
      cases hs : selectSynonym env w t (some j) <;> simp [hs]
    · simp [hw, hm]

theorem buildLoop_cached (env : Env) (l : List (String × String)) :
    ∀ (parts : List String) (st : St),
      (∀ p ∈ l, p.1 = NEWLINE_MARKER ∨ pyStrip p.1 = "" ∨
        ∃ j, st.cache (safe_filename p.1) = some (some j)) →
      (buildLoop env l parts st).2.1 = st ∧ (buildLoop env l parts st).2.2 = 0 := by
  induction l with
  | nil => intro parts st _; simp [buildLoop]
  | cons p rest ih =>
    intro parts st h
    obtain ⟨w, t⟩ := p
    have hp := h (w, t) (List.mem_cons_self _ _)
    have hrest : ∀ q ∈ rest, q.1 = NEWLINE_MARKER ∨ pyStrip q.1 = "" ∨
        ∃ j, st.cache (safe_filename q.1) = some (some j) :=
      fun q hq => h q (List.mem_cons_of_mem _ hq)
    unfold buildLoop
    by_cases hm : w = NEWLINE_MARKER
    · simp only [hm, ite_true]
      exact ih _ st hrest
    · have hc := chooseWord_cached env st w t (hp.resolve_left hm)
      simp only [hm, ite_false, if_neg hm]
      constructor
      · rw [hc.1]
        exact (ih _ st hrest).1
      · rw [hc.1, hc.2]
        simp only [Nat.zero_add]
        exact (ih _ st hrest).2

/-! ## Claim C1 -/

/-- C1 (counterexample): with a thesaurus URL template and key configured
and an empty cache directory, the rebuild operation issues a remote
thesaurus call — the network-call count of
`process … stC1 rebuild` is 1, not 0, refuting "never issues a network
call". -/
theorem c1_counterexample :
    (process envNil GeminiOutcome.exn stC1 PInput.rebuildCmd).toOption.map
      (fun r => (r.1, r.2.2)) = some ("hello", 1) := by decide

/-- C1 (amended): the rebuild operation is exactly a re-run of the Sentence
Builder on the existing state; it never changes `words`, `words_type` or
`data`, and it issues no network call **provided** every non-newline word
of `words_type` is blank or has a readable cache entry (otherwise it may
re-fetch missing thesaurus entries, as the rebuild path re-resolves every
word). -/
theorem c1_rebuild_thm : ∀ (env : Env) (g : GeminiOutcome) (st : St),
    process env g st PInput.rebuildCmd = .ok (build_synonym_string env st) ∧
    (build_synonym_string env st).2.1.words = st.words ∧
    (build_synonym_string env st).2.1.words_type = st.words_type ∧
    (build_synonym_string env st).2.1.data = st.data ∧
    ((∀ p ∈ st.words_type, p.1 = NEWLINE_MARKER ∨ pyStrip p.1 = "" ∨
        ∃ j, st.cache (safe_filename p.1) = some (some j)) →
      (build_synonym_string env st).2.2 = 0) := by
  intro env g st
  have hcore := build_core env st
  refine ⟨rfl, hcore.2.1, hcore.2.2.1, hcore.1, ?_⟩
  intro h
  have hb := buildLoop_cached env st.words_type [] st h
  unfold build_synonym_string
  simpa using hb.2

/-- C1 witness: the amended theorem applied to the fresh session (empty
typed-token list, so the cache hypothesis holds vacuously). -/
theorem c1_rebuild_thm_witness :
    (build_synonym_string envNil stInit).2.2 = 0 ∧
    (build_synonym_string envNil stInit).2.1.words_type = stInit.words_type :=
  ⟨(c1_rebuild_thm envNil GeminiOutcome.exn stInit).2.2.2.2
     (by intro p hp; simp [stInit] at hp),
   (c1_rebuild_thm envNil GeminiOutcome.exn stInit).2.2.1⟩

/-! ## Classifier path lemmas (shared by C2, C4, C5) -/

theorem find_type_fallback (g : GeminiOutcome) (st : St) (txt : String)
    (h : st.gemini_key = none ∨ geminiFails g = true) :
    (find_type g st (some txt)).2.1.words_type =
      (find_type g st (some txt)).2.1.words.map (fun w => (w, guessType w)) := by
  unfold find_type
  simp only [Option.getD_some]
  by_cases h1 : pyStrip txt = ""
  · simp [h1]
  · simp only [h1, ite_false, if_neg h1]
    by_cases h2 : (wordsOf txt).isEmpty
    · simp [h2, List.isEmpty_iff.mp h2]
    · simp only [h2, Bool.false_eq_true, ite_false, if_neg]
      cases hk : st.gemini_key with
      | none => simp
      | some k =>
        rcases h with h | h
        · rw [hk] at h; cases h
        · simp [h]

theorem find_type_success (st : St) (k txt : String) (status : Nat) (j : Json)
    (items : List Json) (hk : st.gemini_key = some k) (hs : status < 400)
    (hit : pyIterate j = some items) (h1 : pyStrip txt ≠ "")
    (h2 : (wordsOf txt).isEmpty = false) :
    (find_type (.resp status (.ok j)) st (some txt)).2.1.words_type = items.map tagItem ∧
    (find_type (.resp status (.ok j)) st (some txt)).2.1.words = wordsOf txt ∧
    (find_type (.resp status (.ok j)) st (some txt)).2.1.gemini_failures = 0 ∧
    (find_type (.resp status (.ok j)) st (some txt)).2.1.gemini_key = some k ∧
    (find_type (.resp status (.ok j)) st (some txt)).2.2 = 1 := by
  have hfail : geminiFails (.resp status (.ok j)) = false := by
    simp [geminiFails, Nat.not_le.mpr hs, hit]
  unfold find_type
  simp [h1, h2, hk, hfail, hit]

theorem find_type_failure (g : GeminiOutcome) (st : St) (k txt : String)
    (hk : st.gemini_key = some k) (h1 : pyStrip txt ≠ "")
    (h2 : (wordsOf txt).isEmpty = false) (hfail : geminiFails g = true) :
    (find_type g st (some txt)).2.1.gemini_failures = st.gemini_failures + 1 ∧
    (find_type g st (some txt)).2.1.gemini_key =
      (if 3 ≤ st.gemini_failures + 1 then none else some k) ∧
    (find_type g st (some txt)).2.2 = 1 := by
  unfold find_type
  simp [h1, h2, hk, hfail]

theorem find_type_disabled (g : GeminiOutcome) (st : St) (txt : String)
    (hk : st.gemini_key = none) :
    (find_type g st (some txt)).2.1.gemini_key = none ∧
    (find_type g st (some txt)).2.2 = 0 := by
  unfold find_type
  by_cases h1 : pyStrip txt = ""
  · simp [h1, hk]
  · by_cases h2 : (wordsOf txt).isEmpty <;> simp [h1, h2, hk]

/-! ## Claim C2 -/

/-- C2 (counterexample): on the remote-tagging **success** path the typed
list mirrors the remote response, not the token list — a well-formed reply
that is an empty JSON array leaves `words_type = []` while `words` has two
entries, refuting "same length on every classifier path". -/
theorem c2_counterexample :
    (find_type (GeminiOutcome.resp 200 (.ok (Json.arr []))) stC2 (some "a b")).2.1.words
        = ["a", "b"] ∧
    (find_type (GeminiOutcome.resp 200 (.ok (Json.arr []))) stC2 (some "a b")).2.1.words_type
        = [] := by decide

/-- C2 (amended): on the local-heuristic path and on every remote-failure
fallback path, `words_type` is exactly `words` zipped with the heuristic
category (hence same length, same order); on the remote success path
`words_type` is the tag of each parsed response item, which matches the
token list only if the remote service returns an index-aligned array. -/
theorem c2_parity_thm :
    (∀ (g : GeminiOutcome) (st : St) (txt : String),
      st.gemini_key = none ∨ geminiFails g = true →
      (find_type g st (some txt)).2.1.words_type =
        (find_type g st (some txt)).2.1.words.map (fun w => (w, guessType w)) ∧
      (find_type g st (some txt)).2.1.words_type.length =
        (find_type g st (some txt)).2.1.words.length) ∧
    (∀ (st : St) (k txt : String) (status : Nat) (j : Json) (items : List Json),
      st.gemini_key = some k → status < 400 → pyIterate j = some items →
      pyStrip txt ≠ "" → (wordsOf txt).isEmpty = false →
      (find_type (.resp status (.ok j)) st (some txt)).2.1.words_type =
        items.map tagItem ∧
      (find_type (.resp status (.ok j)) st (some txt)).2.1.words = wordsOf txt) := by
  constructor
  · intro g st txt h
    have he := find_type_fallback g st txt h
    exact ⟨he, by rw [he, List.length_map]⟩
  · intro st k txt status j items hk hs hit h1 h2
    have hsu := find_type_success st k txt status j items hk hs hit h1 h2
    exact ⟨hsu.1, hsu.2.1⟩

/-- C2 witness: the fallback-parity part applied to the heuristic path of a
fresh session on input `"a b"`. -/
theorem c2_parity_thm_witness :
    (find_type GeminiOutcome.exn stInit (some "a b")).2.1.words_type =
      (find_type GeminiOutcome.exn stInit (some "a b")).2.1.words.map
        (fun w => (w, guessType w)) :=
  (c2_parity_thm.1 GeminiOutcome.exn stInit "a b" (Or.inl rfl)).1

/-! ## Claim C4 -/

/-- C4: no exception escapes `process` — for every environment (including
one whose cache-directory creation raises and whose remote calls fail),
both the submit and the rebuild paths of `process` return a result; a
`makedirs` failure makes `chooseWord` fall back to the original word with
the state unchanged, and any remote-tagging failure makes the classifier
fall back to the local heuristic. -/
theorem c4_no_escape_thm :
    (∀ (env : Env) (g : GeminiOutcome) (st : St) (inp : PInput),
      ∃ r, process env g st inp = .ok r) ∧
    (∀ (env : Env) (st : St) (w t : String), env.makedirsOk = false →
      (chooseWord env st w t).1 = w ∧ (chooseWord env st w t).2.1 = st) ∧
    (∀ (g : GeminiOutcome) (st : St) (txt : String), geminiFails g = true →
      (find_type g st (some txt)).2.1.words_type =
        (find_type g st (some txt)).2.1.words.map (fun w => (w, guessType w))) := by
  refine ⟨?_, ?_, ?_⟩
  · intro env g st inp
    cases inp <;> exact ⟨_, rfl⟩
  · intro env st w t hm
    unfold chooseWord get_or_fetch_thesaurus
    by_cases hw : pyStrip w = ""
    · simp [hw, selectSynonym]
    · simp [hw, hm]
  · intro g st txt hfail
    exact find_type_fallback g st txt (Or.inr hfail)

/-- C4 witness: with a failing `makedirs` the word is kept and the state
untouched. -/
theorem c4_no_escape_thm_witness :
    (chooseWord envBad stInit "hi" "noun").1 = "hi" ∧
    (chooseWord envBad stInit "hi" "noun").2.1 = stInit :=
  c4_no_escape_thm.2.1 envBad stInit "hi" "noun" rfl

/-! ## Claim C5 -/

/-- C5: the remote-tagging circuit breaker — every failed remote tagging
call increments the consecutive-failure counter and clears `gemini_key`
exactly when the counter reaches 3; a successful call resets the counter to
0 and keeps the key; and once the key is `none` every later call performs
no remote call (local heuristic only) and leaves the key `none`. -/
theorem c5_circuit_breaker_thm :
    (∀ (g : GeminiOutcome) (st : St) (k txt : String),
      st.gemini_key = some k → pyStrip txt ≠ "" → (wordsOf txt).isEmpty = false →
      geminiFails g = true →
      (find_type g st (some txt)).2.1.gemini_failures = st.gemini_failures + 1 ∧
      (find_type g st (some txt)).2.1.gemini_key =
        (if 3 ≤ st.gemini_failures + 1 then none else some k) ∧
      (find_type g st (some txt)).2.2 = 1) ∧
    (∀ (st : St) (k txt : String) (status : Nat) (j : Json) (items : List Json),
      st.gemini_key = some k → pyStrip txt ≠ "" → (wordsOf txt).isEmpty = false →
      status < 400 → pyIterate j = some items →
      (find_type (.resp status (.ok j)) st (some txt)).2.1.gemini_failures = 0 ∧
      (find_type (.resp status (.ok j)) st (some txt)).2.1.gemini_key = some k) ∧
    (∀ (g : GeminiOutcome) (st : St) (txt : String),
      st.gemini_key = none →
      (find_type g st (some txt)).2.1.gemini_key = none ∧
      (find_type g st (some txt)).2.2 = 0 ∧
      (find_type g st (some txt)).2.1.words_type =
        (find_type g st (some txt)).2.1.words.map (fun w => (w, guessType w))) := by
  refine ⟨?_, ?_, ?_⟩
  · intro g st k txt hk h1 h2 hfail
    exact find_type_failure g st k txt hk h1 h2 hfail
  · intro st k txt status j items hk h1 h2 hs hit
    have hsu := find_type_success st k txt status j items hk hs hit h1 h2
    exact ⟨hsu.2.2.1, hsu.2.2.2.1⟩
  · intro g st txt hk
    have hd := find_type_disabled g st txt hk
    exact ⟨hd.1, hd.2, find_type_fallback g st txt (Or.inl hk)⟩

/-- C5 witness: a third consecutive failure clears the key; a failure at
counter 0 merely increments it. -/
theorem c5_circuit_breaker_thm_witness :
    (find_type GeminiOutcome.exn stC2 (some "a b")).2.1.gemini_failures = 1 ∧
    (find_type GeminiOutcome.exn { stC2 with gemini_failures := 2 }
      (some "a b")).2.1.gemini_key = none := by
  constructor
  · exact (c5_circuit_breaker_thm.1 GeminiOutcome.exn stC2 "g" "a b" rfl
      (by decide) (by decide) rfl).1
  · have h := (c5_circuit_breaker_thm.1 GeminiOutcome.exn
      { stC2 with gemini_failures := 2 } "g" "a b" rfl (by decide) (by decide) rfl).2.1
    simpa using h

/-! ## Claim C3 -/

/-- C3 (counterexample): the substituted word is produced by Python's
`str.capitalize()`, which lowercases everything after the first character:
for original `"Abc"` and synonym `"mcDonald"` the output is `"Mcdonald"`,
not `"McDonald"` — the rest of the word's casing is **not** unchanged. -/
theorem c3_counterexample :
    (chooseWord envNil stC3 "Abc" "noun").1 = "Mcdonald" ∧
    ("Mcdonald" : String) ≠ "McDonald" := by decide

/-- C3 (amended): every substitution the Synonym Selector emits is either
the original word or `applyCase` of a candidate; when the original word's
first character is uppercase the result is Python `capitalize` of the
synonym (first character uppercased, **all remaining characters
lowercased**); when the original does not start uppercase (in particular
when it is all-lowercase) the synonym's natural casing is preserved. -/
theorem c3_capitalization_thm :
    (∀ (env : Env) (word wtype : String) (entry : Option Json) (s : String),
      selectSynonym env word wtype entry = .ok s →
      s = word ∨ ∃ c, s = applyCase word c) ∧
    (∀ word c, firstIsUpper word = true → applyCase word c = pyCapitalize c) ∧
    (∀ word c, firstIsUpper word = false → applyCase word c = c) ∧
    (∀ (ch : Char) (rest : List Char),
      pyCapitalize (String.mk (ch :: rest)) =
        String.mk (ch.toUpper :: rest.map Char.toLower)) := by
  refine ⟨?_, ?_, ?_, ?_⟩
  · intro env word wtype entry s h
    unfold selectSynonym at h
    cases entry with
    | none => simp at h; exact Or.inl h.symm
    | some e =>
      by_cases ht : pyTruthy e
      · simp only [ht, ite_true] at h
        split at h
        · simp at h; exact Or.inl h.symm
        · cases hcc : collectCandidates
            ((match e with | .arr xs => xs | _ => [e]).filter (matchesType wtype)) with
          | error u => rw [hcc] at h; simp [Bind.bind, Except.bind] at h
          | ok cands0 =>
            rw [hcc] at h
            simp only [Bind.bind, Except.bind] at h
            split at h
            · simp at h; exact Or.inl h.symm
            · simp at h; exact Or.inr ⟨_, h.symm⟩
      · simp only [ht, ite_false, Bool.false_eq_true] at h
        simp at h; exact Or.inl h.symm
  · intro word c h; simp [applyCase, h]
  · intro word c h; simp [applyCase, h]
  · intro ch rest; rfl

/-- C3 witness: the uppercase rule applied to original `"Abc"` and
candidate `"xY"`. -/
theorem c3_capitalization_thm_witness :
    applyCase "Abc" "xY" = pyCapitalize "xY" :=
  c3_capitalization_thm.2.1 "Abc" "xY" rfl

/-! ## Claim C6 -/

/-- Shape of a successful `call_thesaurus`: the returned document is also
recorded in the cache of the returned state, under the word's safe name. -/
theorem call_thesaurus_ok_cache (env : Env) (st : St) (w : String) (j : Json)
    (st1 : St) (n : Nat) (h : call_thesaurus env st w = (some j, st1, n)) :
    st1.cache (safe_filename w) = some (some j) := by
  unfold call_thesaurus at h
  split at h
  · split at h
    · simp at h
    · split at h
      · simp at h
      · split at h
        · simp only [Prod.mk.injEq, Option.some.injEq] at h
          obtain ⟨hj, hst, -⟩ := h
          rw [← hst]
          simp [hj]
        · simp at h
  · simp at h

/-- Shape of a successful `get_or_fetch_thesaurus` returning a document:
the word is non-blank, `makedirs` succeeded, and the returned state's cache
holds the document under the word's safe name. -/
theorem get_or_fetch_ok_cache (env : Env) (st : St) (w : String) (j : Json)
    (st1 : St) (n : Nat)
    (h : get_or_fetch_thesaurus env st w = .ok (some j, st1, n)) :
    pyStrip w ≠ "" ∧ env.makedirsOk = true ∧
    st1.cache (safe_filename w) = some (some j) := by
  unfold get_or_fetch_thesaurus at h
  by_cases hw : pyStrip w = ""
  · simp [hw] at h
  · by_cases hm : env.makedirsOk
    · refine ⟨hw, hm, ?_⟩
      simp only [hw, hm, ite_false, Bool.not_true, Bool.false_eq_true, if_neg] at h
      split at h
      · simp only [Except.ok.injEq, Prod.mk.injEq, Option.some.injEq] at h
        obtain ⟨hj, hst, -⟩ := h
        rename_i heq
        rw [← hst]
        rw [hj] at heq
        exact heq
      · simp only [Except.ok.injEq] at h
        exact call_thesaurus_ok_cache env st w j st1 n h
      · simp only [Except.ok.injEq] at h
        exact call_thesaurus_ok_cache env st w j st1 n h
    · simp [hw, hm] at h

/-- C6 (counterexample): when the remote thesaurus call fails, no cache
entry is written, so two successive resolutions of the same word each issue
a remote call — two network calls total, refuting "at most one remote
call" for every pair of calls. -/
theorem c6_counterexample :
    get_or_fetch_thesaurus envNil stC6 "hello" = .ok (none, stC6, 1) ∧
    (1 : Nat) + 1 = 2 := ⟨rfl, rfl⟩

/-- C6 (amended): each single resolution performs at most one remote call,
and whenever a resolution returns a document (a cache hit, or a successful
fetch which then writes the cache file), a second resolution of the same
word returns the same document from the cache with **zero** remote calls. -/
theorem c6_cache_thm :
    (∀ (env : Env) (st : St) (w : String) (r : Option Json × St × Nat),
      get_or_fetch_thesaurus env st w = .ok r → r.2.2 ≤ 1) ∧
    (∀ (env : Env) (st : St) (w : String) (j : Json) (st1 : St) (n : Nat),
      get_or_fetch_thesaurus env st w = .ok (some j, st1, n) →
      get_or_fetch_thesaurus env st1 w = .ok (some j, st1, 0)) := by
  constructor
  · intro env st w r h
    exact (get_or_fetch_core env st w r h).2
  · intro env st w j st1 n h
    obtain ⟨hw, hm, hc⟩ := get_or_fetch_ok_cache env st w j st1 n h
    unfold get_or_fetch_thesaurus
    simp [hw, hm, hc]

/-- C6 witness: a successful fetch of `"hello"` (one network call) followed
by a second resolution served from the freshly written cache entry (zero
network calls). -/
theorem c6_cache_thm_witness :
    get_or_fetch_thesaurus envC6 stC6' "hello" = .ok (some jC6, stC6', 0) :=
  c6_cache_thm.2 envC6 stC6 "hello" jC6 stC6' 1 (by rfl)

/-! ## Claim C7 -/

/-- Whether a character list contains a space immediately followed by a
newline (the pattern the spec's whitespace law forbids). -/
def hasSpaceNl : List Char → Bool
  | c :: d :: rest => if c = ' ' ∧ d = '\n' then true else hasSpaceNl (d :: rest)
  | _ => false

theorem squashSpaceNl_no_spaceNl (l : List Char) :
    hasSpaceNl (squashSpaceNl l) = false := by
  induction l with
  | nil => rfl
  | cons c rest ih =>
    unfold squashSpaceNl
    by_cases hc : c = ' ' ∧ (squashSpaceNl rest).head? = some '\n'
    · simpa [hc] using ih
    · simp only [hc, ite_false, if_neg hc]
      cases ha : squashSpaceNl rest with
      | nil => rfl
      | cons d t =>
        have hd : ¬(c = ' ' ∧ d = '\n') := by
          intro ⟨h1, h2⟩
          exact hc ⟨h1, by simp [ha, h2]⟩
        rw [ha] at ih
        simpa [hasSpaceNl, hd] using ih

theorem squashSpaceNl_head (l : List Char) (c : Char) (rest : List Char)
    (hl : l = c :: rest) (hc : c ≠ ' ') :
    (squashSpaceNl l).head? = some c := by
  subst hl
  unfold squashSpaceNl
  simp [hc]

/-- A list whose `head?` is `some ch` is a cons headed by `ch`. -/
theorem head_eq_cons (l : List Char) (ch : Char) (h : l.head? = some ch) :
    ∃ tl, l = ch :: tl := by
  cases l with
  | nil => cases h
  | cons c t =>
    simp only [List.head?_cons, Option.some.injEq] at h
    exact ⟨t, by rw [h]⟩

/-- `pyRstrip` keeps the first character when it is not whitespace. -/
theorem pyRstrip_head (p : String) (ch : Char) (h1 : p.data.head? = some ch)
    (h2 : pyIsSpace ch = false) : (pyRstrip p).data.head? = some ch := by
  obtain ⟨t, hp⟩ := head_eq_cons p.data ch h1
  have key : ∀ xs : List Char,
      ((List.dropWhile pyIsSpace (xs ++ [ch])).reverse).head? = some ch := by
    intro xs
    induction xs with
    | nil => simp [List.dropWhile, h2]
    | cons x xs ih =>
      by_cases hx : pyIsSpace x
      · simpa [List.dropWhile, hx] using ih
      · simp [List.dropWhile, hx]
  show ((p.data.reverse.dropWhile pyIsSpace).reverse).head? = some ch
  rw [hp, List.reverse_cons]
  exact key t.reverse

theorem flatten_head (p : String) (ps : List String) (ch : Char)
    (hh : p.data.head? = some ch) :
    (((p :: ps).map String.data).flatten).head? = some ch := by
  cases hp : p.data with
  | nil => rw [hp] at hh; cases hh
  | cons c t => rw [hp] at hh; cases hh; simp [hp]

/-- `rstripLast` keeps a nonempty buffer nonempty and preserves the head
part's first character (given the head-part invariant). -/
theorem rstripLast_head (p : String) (ps : List String) (ch : Char)
    (hh : p.data.head? = some ch) (hcase : pyIsSpace ch = false ∨ p = "\n") :
    ∃ p' ps', rstripLast (p :: ps) = p' :: ps' ∧ p'.data.head? = some ch ∧
      (pyIsSpace ch = false ∨ p' = "\n") := by
  unfold rstripLast
  cases ps with
  | nil =>
    simp only [List.getLast?_singleton]
    by_cases he : strEndsWith p " "
    · rcases hcase with hsp | hnl
      · exact ⟨pyRstrip p, [], by simp [he], pyRstrip_head p ch hh hsp, Or.inl hsp⟩
      · subst hnl
        cases he -- strEndsWith "\n" " " reduces to false, contradiction
    · exact ⟨p, [], by simp [he], hh, hcase⟩
  | cons q qs =>
    have hgl : (p :: q :: qs).getLast? = (q :: qs).getLast? := by
      simp [List.getLast?_cons_cons]
    rw [hgl]
    cases hgq : (q :: qs).getLast? with
    | none => simp at hgq
    | some lastP =>
      by_cases he : strEndsWith lastP " "
      · refine ⟨p, (q :: qs).dropLast ++ [pyRstrip lastP], ?_, hh, hcase⟩
        simp [he, List.dropLast_cons_of_ne_nil]
      · exact ⟨p, q :: qs, by simp [he], hh, hcase⟩

/-- Through the whole build loop, a nonempty buffer whose first part starts
with a given non-space character (or is the newline segment) keeps that
first character at the front of the joined output. -/
theorem buildLoop_first (env : Env) (l : List (String × String)) :
    ∀ (p : String) (ps : List String) (st : St) (ch : Char),
      p.data.head? = some ch → (pyIsSpace ch = false ∨ p = "\n") →
      ((((buildLoop env l (p :: ps) st).1).map String.data).flatten).head? = some ch := by
  induction l with
  | nil =>
    intro p ps st ch hh _
    simpa [buildLoop] using flatten_head p ps ch hh
  | cons wt rest ih =>
    intro p ps st ch hh hcase
    obtain ⟨w, t⟩ := wt
    unfold buildLoop
    by_cases hm : w = NEWLINE_MARKER
    · simp only [hm, ite_true]
      obtain ⟨p', ps', heq, hh', hcase'⟩ := rstripLast_head p ps ch hh hcase
      rw [heq, List.cons_append]
      exact ih p' (ps' ++ ["\n"]) st ch hh' hcase'
    · simp only [hm, ite_false, if_neg hm]
      rw [List.cons_append]
      exact ih p _ _ ch hh hcase

/-- C7 (counterexample): a thesaurus candidate that itself begins with a
space becomes the first buffer segment verbatim, so the built sentence
starts with a space, refuting "never begins with a leading space". -/
theorem c7_counterexample :
    (build_synonym_string envNil stC7).1 = " quick" ∧
    (" quick" : String).data.head? = some ' ' := by decide

/-- C7 (amended): the built sentence never contains a space immediately
before a newline (the final normalisation guarantees this for every state
and environment); it is empty for an empty typed-token list, starts with a
literal newline when the first typed token is the newline marker, and
otherwise starts with the first chosen word's first character — so it
begins with a space only if the chosen synonym itself begins with
whitespace. -/
theorem c7_whitespace_thm :
    (∀ (env : Env) (st : St), hasSpaceNl (build_synonym_string env st).1.data = false) ∧
    (∀ (env : Env) (st : St), st.words_type = [] → (build_synonym_string env st).1 = "") ∧
    (∀ (env : Env) (st : St) (t : String) (rest : List (String × String)),
      st.words_type = (NEWLINE_MARKER, t) :: rest →
      (build_synonym_string env st).1.data.head? = some '\n') ∧
    (∀ (env : Env) (st : St) (w t : String) (rest : List (String × String)) (ch : Char),
      st.words_type = (w, t) :: rest → w ≠ NEWLINE_MARKER →
      (chooseWord env st w t).1.data.head? = some ch → pyIsSpace ch = false →
      (build_synonym_string env st).1.data.head? = some ch) := by
  refine ⟨?_, ?_, ?_, ?_⟩
  · intro env st
    exact squashSpaceNl_no_spaceNl _
  · intro env st h
    unfold build_synonym_string
    simp [h, buildLoop, squashSpaceNl]
  · intro env st t rest h
    unfold build_synonym_string
    rw [h]
    unfold buildLoop
    simp only [ite_true, if_pos rfl]
    have hfirst := buildLoop_first env rest "\n" [] st '\n' rfl (Or.inr rfl)
    have hr : rstripLast ([] : List String) ++ ["\n"] = ["\n"] := rfl
    rw [hr]
    obtain ⟨tl, htl⟩ := head_eq_cons _ '\n' hfirst
    show (squashSpaceNl ((((buildLoop env rest ["\n"] st).1).map String.data).flatten)).head?
      = some '\n'
    rw [htl]
    exact squashSpaceNl_head _ '\n' tl rfl (by decide)
  · intro env st w t rest ch h hm hch hsp
    unfold build_synonym_string
    rw [h]
    unfold buildLoop
    simp only [hm, ite_false, if_neg hm, List.getLast?_nil]
    have hfirst := buildLoop_first env rest (chooseWord env st w t).1 []
      (chooseWord env st w t).2.1 ch hch (Or.inl hsp)
    have hns : ch ≠ ' ' := by
      intro hcontra
      rw [hcontra] at hsp
      cases hsp
    obtain ⟨tl, htl⟩ := head_eq_cons _ ch hfirst
    show (squashSpaceNl ((((buildLoop env rest ([] ++ [(chooseWord env st w t).1])
        (chooseWord env st w t).2.1).1).map String.data).flatten)).head? = some ch
    rw [show ([] ++ [(chooseWord env st w t).1] : List String)
        = [(chooseWord env st w t).1] from rfl]
    rw [htl]
    exact squashSpaceNl_head _ ch tl rfl hns

/-- Session whose single typed token resolves to no thesaurus data. -/
def stC7w : St := { stInit with words_type := [("fox", "noun")] }

/-- C7 witness: with a word whose chosen substitute starts with a
non-space character, the built sentence starts with that character. -/
theorem c7_whitespace_thm_witness :
    (build_synonym_string envNil stC7w).1.data.head? = some 'f' :=
  c7_whitespace_thm.2.2.2 envNil stC7w "fox" "noun" [] 'f' rfl (by decide)
    (by decide) rfl

/-! ## Claim C8 -/

/-- C8: the heuristic cascade — newline sentinel, all-non-word
punctuation, numerals, the closed word classes in pronoun → determiner →
preposition → conjunction priority (`"for"`, in both the preposition and
conjunction sets, classifies as preposition), `-ly` adverbs, `-ing`/`-ed`/
`-s` verbs, default noun; and the full no-credential scenario: submit of
`"The quick fox\njumps"` classifies The→determiner, quick→noun, fox→noun,
jumps→verb and returns the input unchanged, newline preserved. -/
theorem c8_heuristic_thm :
    guessType NEWLINE_MARKER = "newline" ∧
    guessType "--" = "punctuation" ∧
    guessType "3.14" = "numeral" ∧
    guessType "Them" = "pronoun" ∧
    guessType "Every" = "determiner" ∧
    guessType "into" = "preposition" ∧
    guessType "yet" = "conjunction" ∧
    guessType "for" = "preposition" ∧
    guessType "quickly" = "adverb" ∧
    (guessType "singing" = "verb" ∧ guessType "jumped" = "verb" ∧
     guessType "jumps" = "verb") ∧
    guessType "quick" = "noun" ∧
    guessType "fox" = "noun" ∧
    (process envNil GeminiOutcome.exn stInit (.text "The quick fox\njumps")).toOption.map
        (fun r => (r.1, r.2.1.words, r.2.1.words_type, r.2.2)) =
      some ("The quick fox\njumps",
            ["The", "quick", "fox", NEWLINE_MARKER, "jumps"],
            [("The", "determiner"), ("quick", "noun"), ("fox", "noun"),
             (NEWLINE_MARKER, "newline"), ("jumps", "verb")], 0) := by decide

/-! ## Claim C9 -/

/-- C9 (counterexample): after submitting the whitespace-only input
`" "`, the session's `data` field holds `some " "`, not "no last-submitted
text" — `process` stores `str(input_data)` before the emptiness check. -/
theorem c9_counterexample :
    (process envNil GeminiOutcome.exn stInit (.text " ")).toOption.map
      (fun r => r.2.1.data) = some (some " ") ∧
    (some " " : Option String) ≠ none := by decide

/-- C9 (amended): for every empty or whitespace-only input, submit returns
the empty string with zero network calls, and the token list, typed-token
list and stored sentence all become empty — but `data` keeps the raw
submitted text. -/
theorem c9_empty_thm : ∀ (env : Env) (g : GeminiOutcome) (st : St) (s : String),
    pyStrip s = "" →
    (process env g st (.text s)).toOption.map
      (fun r => (r.1, r.2.1.words, r.2.1.words_type, r.2.1.data,
                 r.2.1.synonym_sentence, r.2.2)) =
      some ("", [], [], some s, "", 0) := by
  intro env g st s h
  simp [process, find_type, prefetchLoop, build_synonym_string, buildLoop,
        squashSpaceNl, h]
  exact ⟨_, _, _, rfl, rfl, rfl, rfl, rfl, rfl, rfl⟩

/-- C9 witness: the amended theorem at the concrete input `" "`. -/
theorem c9_empty_thm_witness :
    (process envNil GeminiOutcome.exn stInit (.text " ")).toOption.map
      (fun r => (r.1, r.2.1.words, r.2.1.words_type, r.2.1.data,
                 r.2.1.synonym_sentence, r.2.2)) =
      some ("", [], [], some " ", "", 0) :=
  c9_empty_thm envNil GeminiOutcome.exn stInit " " (by decide)

/-! ## Claim C10 -/

/-- C10: the sentinel collision — the input `"a _newLine b"` contains no
newline, yet the tokenizer emits the literal token `"_newLine"`, which
equals the internal sentinel, is classified `newline`, and is rendered as a
line break: submit returns `"a\nb"`, which contains a newline absent from
the input. -/
theorem c10_sentinel_thm :
    ('\n' ∉ ("a _newLine b" : String).data) ∧
    pyFindall "a _newLine b" = ["a", "_newLine", "b"] ∧
    wordsOf "a _newLine b" = ["a", NEWLINE_MARKER, "b"] ∧
    guessType NEWLINE_MARKER = "newline" ∧
    (process envNil GeminiOutcome.exn stInit (.text "a _newLine b")).toOption.map
      (fun r => r.1) = some "a\nb" ∧
    '\n' ∈ ("a\nb" : String).data := by decide

end PoemSyn
